import Mathlib

/-!
A shallow embedding of the Scheme-like interpreter in src/ss_py/scheme.py.

Numbers: the Python interpreter stores numbers as host float64 values.  All
arithmetic exercised by the verified programs is exact in float64, so numbers
are modelled as exact fractions (integer numerator over positive natural
denominator, not normalized).  Host float behaviour that this abstraction drops
(rounding of huge values, special values) is unreachable in the verified
programs; note that Python float division by zero raises ZeroDivisionError
rather than producing an infinity, and that error is modelled explicitly.

Mutation: Python Env objects are mutable and aliased (closures keep a reference
to their defining Env).  The embedding makes the heap explicit: a Store is a
list of frames, an environment is an index into the Store, and evaluation
threads the Store.  A closure stores the index of its defining frame, so a
later define into that frame is visible through the closure, exactly as the
aliasing works in Python.

Recursion: Python bounds evaluation by the host call stack; the embedding
bounds it by an explicit fuel parameter, exhaustion giving recursionError
(the analogue of Python RecursionError).
-/

namespace SchemePy

/-- Exact fraction standing for a Python float value; `den` is kept positive
by every constructor and operation below. -/
structure PyFloat where
  num : Int
  den : Nat
deriving DecidableEq, Repr

def PyFloat.ofInt (i : Int) : PyFloat := ⟨i, 1⟩

instance (n : Nat) : OfNat PyFloat n := ⟨⟨Int.ofNat n, 1⟩⟩

def pyAdd (a b : PyFloat) : PyFloat := ⟨a.num * b.den + b.num * a.den, a.den * b.den⟩

def pyNeg (a : PyFloat) : PyFloat := ⟨-a.num, a.den⟩

def pySub (a b : PyFloat) : PyFloat := ⟨a.num * b.den - b.num * a.den, a.den * b.den⟩

def pyMul (a b : PyFloat) : PyFloat := ⟨a.num * b.num, a.den * b.den⟩

/-- Division; callers check for a zero divisor first (Python raises
ZeroDivisionError there, see applyBuiltin). -/
def pyDiv (a b : PyFloat) : PyFloat :=
  if 0 ≤ b.num then ⟨a.num * b.den, a.den * b.num.toNat⟩
  else ⟨-(a.num * b.den), a.den * (-b.num).toNat⟩

def pyLe (a b : PyFloat) : Bool := decide (a.num * b.den ≤ b.num * a.den)

def pyLt (a b : PyFloat) : Bool := decide (a.num * b.den < b.num * a.den)

def pyEq (a b : PyFloat) : Bool := decide (a.num * b.den = b.num * a.den)

/-- Parsed expressions: Expression = Union[float, bool, SchemeSymbol, List[Expression]]. -/
inductive Exp where
  | num (n : PyFloat)
  | bool (b : Bool)
  | sym (s : String)
  | list (es : List Exp)
deriving Repr

/-- Runtime values: SchemeValue = Union[float, bool, SchemeProc].  A procedure
is a builtin (identified by its name in the global table) or a closure holding
parameter names, the unevaluated body and the index of its defining frame.
`nil` is the Python None returned by define. -/
inductive Value where
  | num (n : PyFloat)
  | bool (b : Bool)
  | closure (params : List String) (body : Exp) (env : Nat)
  | builtin (name : String)
  | nil
deriving Repr

/-- The exception kinds the Python code can raise while parsing or evaluating. -/
inductive Err where
  | syntaxError (msg : String)
  | nameError (var : String)
  | typeError (msg : String)
  | zeroDivisionError
  | indexError
  | recursionError
deriving Repr

/-- One Env object: its own bindings dict plus the optional parent reference,
here the parent frame index. -/
structure Frame where
  bindings : List (String × Value)
  parent : Option Nat

/-- The explicit heap of Env objects; an environment is an index into it. -/
abbrev Store := List Frame

/-- Dict lookup: first match wins; every update keeps keys unique. -/
def lookupBinding : List (String × Value) → String → Option Value
  | [], _ => none
  | (k, v) :: rest, x => if k = x then some v else lookupBinding rest x

/-- Dict update: overwrite the existing key in place, else append. -/
def setBinding : List (String × Value) → String → Value → List (String × Value)
  | [], x, v => [(x, v)]
  | (k, w) :: rest, x, v =>
      if k = x then (k, v) :: rest else (k, w) :: setBinding rest x v

/-- dict(zip(params, args)): pair positionally, truncating at the shorter
list, later duplicate keys overwriting earlier ones. -/
def dictOfZip (ps : List String) (vs : List Value) : List (String × Value) :=
  (List.zip ps vs).foldl (fun d pv => setBinding d pv.1 pv.2) []

/-- Env.find: return the index of the innermost frame of the chain that binds
the variable, raising NameError when the chain runs out.  The fuel argument
bounds the walk; parent indices always point to earlier frames in the stores
built by evaluation, so the store length suffices as fuel. -/
def findFrame (store : Store) : Nat → String → Nat → Except Err Nat
  | _, x, 0 => .error (.nameError x)
  | e, x, fuel + 1 =>
      match store[e]? with
      | none => .error (.nameError x)
      | some fr =>
          if (lookupBinding fr.bindings x).isSome then .ok e
          else
            match fr.parent with
            | none => .error (.nameError x)
            | some p => findFrame store p x fuel

/-- env[var], i.e. self.find(var)[var]. -/
def getVar (store : Store) (e : Nat) (x : String) : Except Err Value := do
  let i ← findFrame store e x (store.length + 1)
  match store[i]? with
  | some fr =>
      match lookupBinding fr.bindings x with
      | some v => .ok v
      | none => .error (.nameError x)
  | none => .error (.nameError x)

/-- env[var] = value: writes into the bindings of frame e only. -/
def setVar (store : Store) (e : Nat) (x : String) (v : Value) : Store :=
  match store[e]? with
  | some fr => store.set e { fr with bindings := setBinding fr.bindings x v }
  | none => store

/-- The frame indices visited by an outward walk from e, bounded by fuel. -/
def envChain (store : Store) : Nat → Nat → List Nat
  | _, 0 => []
  | e, fuel + 1 =>
      match store[e]? with
      | none => [e]
      | some fr =>
          match fr.parent with
          | none => [e]
          | some p => e :: envChain store p fuel

/-- Insert a space on both sides of every paren, as the regex substitution does. -/
def padParens (cs : List Char) : List Char :=
  cs.foldr (fun c acc => if c = '(' ∨ c = ')' then ' ' :: c :: ' ' :: acc else c :: acc) []

/-- str.split with no separator: split on whitespace runs, dropping empty
pieces; cur accumulates the current token reversed. -/
def splitWsAux : List Char → List Char → List String
  | [], cur => if cur.isEmpty then [] else [String.mk cur.reverse]
  | c :: rest, cur =>
      if c.isWhitespace then
        if cur.isEmpty then splitWsAux rest []
        else String.mk cur.reverse :: splitWsAux rest []
      else splitWsAux rest (c :: cur)

/-- tokenize: surround every paren with spaces, then split on whitespace. -/
def tokenize (s : String) : List String := splitWsAux (padParens s.data) []

def isDigits (cs : List Char) : Bool := !cs.isEmpty && cs.all Char.isDigit

def digitsToNat (cs : List Char) : Nat := cs.foldl (fun a c => a * 10 + (c.toNat - 48)) 0

/-- Split a character list at every dot. -/
def splitDot : List Char → List (List Char)
  | [] => [[]]
  | c :: rest =>
      if c = '.' then [] :: splitDot rest
      else
        match splitDot rest with
        | seg :: segs => (c :: seg) :: segs
        | [] => [[c]]

/-- float(token) restricted to signed decimal literals (optionally with a
fractional part), which covers every numeric token of the verified programs;
exponent, infinity and nan spellings of the host float grammar are outside
the model and classify as symbols. -/
def pyFloatOfToken (t : String) : Option PyFloat :=
  let (sign, body) : Int × List Char :=
    match t.data with
    | '-' :: rest => (-1, rest)
    | '+' :: rest => (1, rest)
    | cs => (1, cs)
  match splitDot body with
  | [ip] =>
      if isDigits ip then some ⟨sign * digitsToNat ip, 1⟩ else none
  | [ip, fp] =>
      if (isDigits ip || ip.isEmpty) && (isDigits fp || fp.isEmpty)
          && !(ip.isEmpty && fp.isEmpty) then
        some ⟨sign * (digitsToNat ip * (10 ^ fp.length) + digitsToNat fp),
              10 ^ fp.length⟩
      else none
  | _ => none

/-- atom: number if the token parses as a float literal, else the two boolean
literals, else a symbol. -/
def atom (t : String) : Exp :=
  match pyFloatOfToken t with
  | some n => .num n
  | none =>
      if t = "#t" then .bool true
      else if t = "#f" then .bool false
      else .sym t

/-- parse, with the two mutually recursive roles merged into one
fuel-structural function: mode true consumes exactly one expression and
returns it as a singleton, mode false consumes a paren group body up to and
including the closing paren.  The fuel only pays for the recursion depth;
callers pass enough for the token count. -/
def parseAux : Nat → Bool → List String → Except Err (List Exp × List String)
  | 0, _, _ => .error (.syntaxError "parser fuel exhausted")
  | _ + 1, true, [] => .error (.syntaxError "Unexpected EOF while parsing")
  | fuel + 1, true, t :: ts =>
      if t = "(" then do
        let (l, rest) ← parseAux fuel false ts
        .ok ([.list l], rest)
      else if t = ")" then .error (.syntaxError "Unexpected close paren")
      else .ok ([atom t], ts)
  | _ + 1, false, [] => .error (.syntaxError "Expected close paren")
  | fuel + 1, false, t :: ts =>
      if t = ")" then .ok ([], ts)
      else do
        let (e1, rest) ← parseAux fuel true (t :: ts)
        let (l, rest2) ← parseAux fuel false rest
        .ok (e1 ++ l, rest2)

/-- parse one expression off the front of the token list, returning the
unconsumed remainder. -/
def parse (fuel : Nat) (tokens : List String) : Except Err (Exp × List String) := do
  let (l, rest) ← parseAux fuel true tokens
  match l with
  | [e] => .ok (e, rest)
  | _ => .error (.syntaxError "parser invariant")

/-- Coercion used by host arithmetic: floats are themselves, Python booleans
are the integers 1 and 0, procedures and None are not numbers. -/
def asNum : Value → Option PyFloat
  | .num n => some n
  | .bool b => some (if b then ⟨1, 1⟩ else ⟨0, 1⟩)
  | _ => none

/-- sum(args): fold, raising TypeError at the first non-numeric element. -/
def sumNums : List Value → Except Err PyFloat
  | [] => .ok ⟨0, 1⟩
  | v :: vs =>
      match asNum v with
      | some n => do
          let s ← sumNums vs
          .ok (pyAdd n s)
      | none => .error (.typeError "unsupported operand type for sum")

/-- Python truthiness of the runtime values: False, 0.0 and None are falsy,
everything else (procedures included) is truthy. -/
def pyTruthy : Value → Bool
  | .num n => decide (n.num ≠ 0)
  | .bool b => b
  | .nil => false
  | .closure _ _ _ => true
  | .builtin _ => true

/-- Python == on runtime values: numeric kinds compare by value (booleans
count as 1 and 0), None equals None, builtins are the same object exactly
when they are the same table entry.  Python compares closure objects by
identity; object identity is not represented here, so closure comparisons
are modelled as unequal (no verified program compares procedures). -/
def valueEq (x y : Value) : Bool :=
  match asNum x, asNum y with
  | some a, some b => pyEq a b
  | _, _ =>
      match x, y with
      | .nil, .nil => true
      | .builtin a, .builtin b => a = b
      | _, _ => false

/-- The bodies of the host lambdas installed by create_global_env, one case
per table entry, applied to an evaluated argument list. -/
def applyBuiltin (name : String) (args : List Value) : Except Err Value :=
  match name with
  | "+" => do
      let s ← sumNums args
      .ok (.num s)
  | "-" =>
      match args with
      | [] => .error (.typeError "missing required positional argument")
      | [x] =>
          match asNum x with
          | some n => .ok (.num (pyNeg n))
          | none => .error (.typeError "bad operand type for unary minus")
      | x :: ys => do
          let s ← sumNums ys
          match asNum x with
          | some n => .ok (.num (pySub n s))
          | none => .error (.typeError "unsupported operand type for sub")
  | "*" =>
      match args with
      | [] => .error .indexError
      | [x] => .ok x
      | x :: y :: _ =>
          match asNum x, asNum y with
          | some a, some b => .ok (.num (pyMul a b))
          | _, _ => .error (.typeError "unsupported operand type for mul")
  | "/" =>
      match args with
      | [x, y] =>
          match asNum x, asNum y with
          | some a, some b =>
              if b.num = 0 then .error .zeroDivisionError
              else .ok (.num (pyDiv a b))
          | _, _ => .error (.typeError "unsupported operand type for div")
      | _ => .error (.typeError "takes 2 positional arguments")
  | "=" =>
      match args with
      | [x, y] => .ok (.bool (valueEq x y))
      | _ => .error (.typeError "takes 2 positional arguments")
  | "<=" =>
      match args with
      | [x, y] =>
          match asNum x, asNum y with
          | some a, some b => .ok (.bool (pyLe a b))
          | _, _ => .error (.typeError "not supported between instances")
      | _ => .error (.typeError "takes 2 positional arguments")
  | ">=" =>
      match args with
      | [x, y] =>
          match asNum x, asNum y with
          | some a, some b => .ok (.bool (pyLe b a))
          | _, _ => .error (.typeError "not supported between instances")
      | _ => .error (.typeError "takes 2 positional arguments")
  | "<" =>
      match args with
      | [x, y] =>
          match asNum x, asNum y with
          | some a, some b => .ok (.bool (pyLt a b))
          | _, _ => .error (.typeError "not supported between instances")
      | _ => .error (.typeError "takes 2 positional arguments")
  | ">" =>
      match args with
      | [x, y] =>
          match asNum x, asNum y with
          | some a, some b => .ok (.bool (pyLt b a))
          | _, _ => .error (.typeError "not supported between instances")
      | _ => .error (.typeError "takes 2 positional arguments")
  | "not" =>
      match args with
      | [x] => .ok (.bool (!pyTruthy x))
      | _ => .error (.typeError "takes 1 positional argument")
  | _ => .error (.typeError "unknown builtin")

/-- The evaluator signature threaded through the special-form helpers:
expression, environment index, store in, value and store out. -/
abbrev Evaluator := Exp → Nat → Store → Except Err (Value × Store)

/-- _define: exactly three elements with a symbol second, else SyntaxError;
evaluate the value expression and write it into the current frame. -/
def evalDefine (ev : Evaluator) (expr : List Exp) (env : Nat) (store : Store) :
    Except Err (Value × Store) :=
  match expr with
  | [_, .sym v, value] => do
      let (val, s) ← ev value env store
      .ok (.nil, setVar s env v val)
  | _ => .error (.syntaxError "Malformed define expression")

/-- _if: exactly four elements, else SyntaxError; evaluate the test and take
the consequent unless the test value is the boolean false object. -/
def evalIf (ev : Evaluator) (expr : List Exp) (env : Nat) (store : Store) :
    Except Err (Value × Store) :=
  match expr with
  | [_, test, conseq, alt] => do
      let (v, s) ← ev test env store
      match v with
      | .bool false => ev alt env s
      | _ => ev conseq env s
  | _ => .error (.syntaxError "Malformed if expression")

def symbolList : List Exp → Option (List String)
  | [] => some []
  | .sym s :: rest => (symbolList rest).map (fun l => s :: l)
  | _ => none

/-- _lambda: exactly three elements with a list of symbols second, else
SyntaxError; build a closure over the current environment index. -/
def evalLambda (expr : List Exp) (env : Nat) (store : Store) :
    Except Err (Value × Store) :=
  match expr with
  | [_, .list ps, body] =>
      match symbolList ps with
      | some params => .ok (.closure params body env, store)
      | none => .error (.syntaxError "Malformed lambda expression")
  | _ => .error (.syntaxError "Malformed lambda expression")

/-- The loop of _and over the operand list: empty list gives the True of the
no-operand case, the boolean false value returns False at once, otherwise the
last operand value is returned. -/
def andLoop (ev : Evaluator) : List Exp → Nat → Store → Except Err (Value × Store)
  | [], _, store => .ok (.bool true, store)
  | [e], env, store => do
      let (v, s) ← ev e env store
      match v with
      | .bool false => .ok (.bool false, s)
      | _ => .ok (v, s)
  | e :: e2 :: es, env, store => do
      let (v, s) ← ev e env store
      match v with
      | .bool false => .ok (.bool false, s)
      | _ => andLoop ev (e2 :: es) env s

def evalAnd (ev : Evaluator) (expr : List Exp) (env : Nat) (store : Store) :
    Except Err (Value × Store) :=
  andLoop ev (expr.drop 1) env store

/-- The loop of _or over the operand list: empty list gives the False of the
no-operand case, the first value other than boolean false is returned at
once, and when every operand gave false the final false is returned. -/
def orLoop (ev : Evaluator) : List Exp → Nat → Store → Except Err (Value × Store)
  | [], _, store => .ok (.bool false, store)
  | e :: es, env, store => do
      let (v, s) ← ev e env store
      match v with
      | .bool false => orLoop ev es env s
      | _ => .ok (v, s)

def evalOr (ev : Evaluator) (expr : List Exp) (env : Nat) (store : Store) :
    Except Err (Value × Store) :=
  orLoop ev (expr.drop 1) env store

/-- The argument list comprehension: evaluate left to right in the caller
environment, threading the store. -/
def evalArgs (ev : Evaluator) : List Exp → Nat → Store → Except Err (List Value × Store)
  | [], _, store => .ok ([], store)
  | e :: es, env, store => do
      let (v, s) ← ev e env store
      let (vs, s2) ← evalArgs ev es env s
      .ok (v :: vs, s2)

/-- Closure call: a fresh frame binding dict(zip(params, args)) with the
captured environment as parent is appended to the store, and the body is
evaluated there. -/
def applyClosure (ev : Evaluator) (params : List String) (body : Exp) (cenv : Nat)
    (args : List Value) (store : Store) : Except Err (Value × Store) :=
  ev body store.length (store ++ [⟨dictOfZip params args, some cenv⟩])

/-- evaluate: literals, then symbol lookup, then the empty-list SyntaxError,
then define, then the special-form table, then general application with the
callable check before the arguments are evaluated. -/
def evaluate : Nat → Exp → Nat → Store → Except Err (Value × Store)
  | 0, _, _, _ => .error .recursionError
  | fuel + 1, expr, env, store =>
      match expr with
      | .num n => .ok (.num n, store)
      | .bool b => .ok (.bool b, store)
      | .sym s => do
          let v ← getVar store env s
          .ok (v, store)
      | .list [] => .error (.syntaxError "Malformed expression")
      | .list (f :: rest) =>
          match f with
          | .sym "define" => evalDefine (evaluate fuel) (f :: rest) env store
          | .sym "if" => evalIf (evaluate fuel) (f :: rest) env store
          | .sym "lambda" => evalLambda (f :: rest) env store
          | .sym "and" => evalAnd (evaluate fuel) (f :: rest) env store
          | .sym "or" => evalOr (evaluate fuel) (f :: rest) env store
          | _ => do
              let (proc, s1) ← evaluate fuel f env store
              match proc with
              | .closure ps body cenv => do
                  let (args, s2) ← evalArgs (evaluate fuel) rest env s1
                  applyClosure (evaluate fuel) ps body cenv args s2
              | .builtin bname => do
                  let (args, s2) ← evalArgs (evaluate fuel) rest env s1
                  let v ← applyBuiltin bname args
                  .ok (v, s2)
              | _ => .error (.typeError "Procedure is not callable")

/-- create_global_env: the single root frame holding the builtin table. -/
def globalBindings : List (String × Value) :=
  [("+", .builtin "+"), ("-", .builtin "-"), ("*", .builtin "*"), ("/", .builtin "/"),
   ("=", .builtin "="), ("<=", .builtin "<="), (">=", .builtin ">="),
   ("<", .builtin "<"), (">", .builtin ">"), ("not", .builtin "not")]

def create_global_env : Store := [⟨globalBindings, none⟩]

/-- One buffered unit of file mode: tokenize, parse one expression (leftover
tokens are dropped, as in the Python driver) and evaluate it in the global
frame, index 0. -/
def runForm (fuel : Nat) (s : String) (store : Store) : Except Err (Value × Store) := do
  let (e, _) ← parse (2 * (tokenize s).length + 2) (tokenize s)
  evaluate fuel e 0 store

/-- Run the forms of a program in order against one global environment,
returning the last value and the final store. -/
def runProgram (fuel : Nat) (lines : List String) : Except Err (Value × Store) :=
  lines.foldlM (fun acc s => runForm fuel s acc.2) ((Value.nil, create_global_env) : Value × Store)

/-- The value of the last form of a program. -/
def runValue (fuel : Nat) (lines : List String) : Except Err Value :=
  (runProgram fuel lines).map (fun r => r.1)

/-- The value of a single expression evaluated in a fresh global environment. -/
def evalString (s : String) : Except Err Value := runValue 100 [s]

/-- The exception classes the file driver catches and reports: SyntaxError,
NameError, TypeError, IndexError.  ZeroDivisionError and RecursionError
propagate out of the driver. -/
def driverCatches : Err → Bool
  | .syntaxError _ => true
  | .nameError _ => true
  | .typeError _ => true
  | .indexError => true
  | .zeroDivisionError => false
  | .recursionError => false

/-- The paren contribution of one token: +1 for an open, -1 for a close. -/
def parenScore (t : String) : Int :=
  if t = "(" then 1 else if t = ")" then -1 else 0

/-- Net paren balance of a token sequence; a balanced sequence scores 0. -/
def parenBalance (ts : List String) : Int := (ts.map parenScore).sum

/-- C1: closures capture their defining environment by reference, not by value
snapshot.  After (define x 1) (define f (lambda () x)) (define x 2), the call
(f) returns 2, because the later define mutates the frame the closure points
to; consequently the naive recursive factorial defined via define and lambda
evaluates (fact 5) to 120 (the host prints the float value 120.0) instead of
failing with NameError. -/
theorem c1_closures_capture_env_by_reference :
    runValue 100 ["(define x 1)", "(define f (lambda () x))", "(define x 2)", "(f)"]
        = .ok (.num 2)
    ∧ runValue 200 ["(define fact (lambda (n) (if (<= n 1) 1 (* n (fact (- n 1))))))",
        "(fact 5)"] = .ok (.num 120) :=
  ⟨rfl, rfl⟩

/-- C2 counterexample: calling a lambda of two parameters with one argument
does not raise any error, let alone an ArityError: it returns the value of the
body, with only the first parameter bound. -/
theorem c2_counterexample_no_arity_error :
    evalString "((lambda (x y) x) 1)" = .ok (.num 1) :=
  rfl

/-- C2 amended: invoking a closure never checks arity.  Parameters are paired
with arguments positionally by zip, truncating at the shorter list: a frame
with dict(zip(params, args)) is pushed and the body evaluated there.
A two-parameter lambda called with one argument succeeds when the body uses
the bound parameter, fails with NameError (not an arity failure) when the body
references the unbound one, and extra arguments are silently dropped. -/
theorem c2_closure_arity_unchecked :
    (∀ ev ps body cenv args store,
        applyClosure ev ps body cenv args store
          = ev body store.length (store ++ [⟨dictOfZip ps args, some cenv⟩]))
    ∧ evalString "((lambda (x y) x) 1)" = .ok (.num 1)
    ∧ evalString "((lambda (x y) y) 1)" = .error (.nameError "y")
    ∧ evalString "((lambda (x) x) 1 2)" = .ok (.num 1) :=
  ⟨fun _ _ _ _ _ _ => rfl, rfl, rfl, rfl⟩

/-- C3 counterexample: (/ 1 0) does not return a number (no infinity or nan):
it raises ZeroDivisionError, because Python float division by zero raises. -/
theorem c3_counterexample_div_zero_raises :
    evalString "(/ 1 0)" = .error .zeroDivisionError :=
  rfl

/-- C3 amended: the builtin / applied to two Numbers with a zero second
operand raises ZeroDivisionError, an exception class the file driver does not
catch, rather than following IEEE semantics and producing infinity or nan. -/
theorem c3_div_by_zero_is_error :
    (∀ (x : PyFloat) (d : Nat),
        applyBuiltin "/" [.num x, .num ⟨0, d⟩] = .error .zeroDivisionError)
    ∧ driverCatches .zeroDivisionError = false
    ∧ evalString "(/ 1 0)" = .error .zeroDivisionError :=
  ⟨fun _ _ => rfl, rfl, rfl⟩

/-- C4 counterexample: (not 0) returns true, not false: the builtin uses host
Python truthiness, in which the number zero is falsy. -/
theorem c4_counterexample_not_zero :
    evalString "(not 0)" = .ok (.bool true) :=
  rfl

/-- C4 amended: not negates host Python truthiness, in which Boolean false,
every zero number and the no-value result are falsy and everything else
(nonzero numbers, procedures) is truthy; so (not #f) and (not 0) both return
true while (not 1) returns false. -/
theorem c4_not_uses_host_truthiness :
    (∀ v, applyBuiltin "not" [v] = .ok (.bool (!pyTruthy v)))
    ∧ pyTruthy (.bool false) = false
    ∧ (∀ d, pyTruthy (.num ⟨0, d⟩) = false)
    ∧ (∀ n d, pyTruthy (.num ⟨n, d⟩) = decide (n ≠ 0))
    ∧ pyTruthy .nil = false
    ∧ evalString "(not #f)" = .ok (.bool true)
    ∧ evalString "(not 0)" = .ok (.bool true)
    ∧ evalString "(not 1)" = .ok (.bool false) :=
  ⟨fun _ => rfl, rfl, fun _ => rfl, fun _ _ => rfl, rfl, rfl, rfl, rfl⟩

/-- C5 counterexample: (* 2 3 4) does not fail with any arity error: it
returns 6, the product of the first two operands, silently ignoring the rest. -/
theorem c5_counterexample_star_three_operands :
    evalString "(* 2 3 4)" = .ok (.num 6) :=
  rfl

/-- C5 amended: * with zero operands raises host IndexError, with one operand
returns it unchanged, and with two or more returns the product of the first
two, ignoring the rest; the fixed-arity builtin / raises host TypeError (there
is no dedicated ArityError) for any operand count other than two; Booleans are
accepted where Numbers are required (coerced to 1 and 0) rather than raising
TypeError, while a procedure operand does raise TypeError. -/
theorem c5_builtin_arity_and_types :
    applyBuiltin "*" [] = .error .indexError
    ∧ (∀ v, applyBuiltin "*" [v] = .ok v)
    ∧ (∀ x y rest, applyBuiltin "*" (.num x :: .num y :: rest) = .ok (.num (pyMul x y)))
    ∧ evalString "(* 2 3 4)" = .ok (.num 6)
    ∧ applyBuiltin "/" [] = .error (.typeError "takes 2 positional arguments")
    ∧ (∀ a, applyBuiltin "/" [a] = .error (.typeError "takes 2 positional arguments"))
    ∧ (∀ a b c rest,
        applyBuiltin "/" (a :: b :: c :: rest) = .error (.typeError "takes 2 positional arguments"))
    ∧ (∀ s, applyBuiltin "+" [.builtin s] = .error (.typeError "unsupported operand type for sum"))
    ∧ evalString "(+ 1 #t)" = .ok (.num 2) :=
  ⟨rfl, fun _ => rfl, fun _ _ _ => rfl, rfl, rfl, fun _ => rfl,
   fun _ _ _ _ => rfl, fun _ => rfl, rfl⟩

/-- C10: special forms cannot be shadowed by environment bindings.  For every
store and environment, a non-empty list whose head is the symbol define, if,
lambda, and, or or dispatches to the corresponding handler, never to lookup
and application; in particular after (define if 42) the form (if #t 1 2) still
evaluates as a conditional and returns 1. -/
theorem c10_special_forms_not_shadowed :
    (∀ fuel rest env store,
        evaluate (fuel + 1) (.list (.sym "define" :: rest)) env store
          = evalDefine (evaluate fuel) (.sym "define" :: rest) env store)
    ∧ (∀ fuel rest env store,
        evaluate (fuel + 1) (.list (.sym "if" :: rest)) env store
          = evalIf (evaluate fuel) (.sym "if" :: rest) env store)
    ∧ (∀ fuel rest env store,
        evaluate (fuel + 1) (.list (.sym "lambda" :: rest)) env store
          = evalLambda (.sym "lambda" :: rest) env store)
    ∧ (∀ fuel rest env store,
        evaluate (fuel + 1) (.list (.sym "and" :: rest)) env store
          = evalAnd (evaluate fuel) (.sym "and" :: rest) env store)
    ∧ (∀ fuel rest env store,
        evaluate (fuel + 1) (.list (.sym "or" :: rest)) env store
          = evalOr (evaluate fuel) (.sym "or" :: rest) env store)
    ∧ runValue 100 ["(define if 42)", "(if #t 1 2)"] = .ok (.num 1) :=
  ⟨fun _ _ _ _ => rfl, fun _ _ _ _ => rfl, fun _ _ _ _ => rfl,
   fun _ _ _ _ => rfl, fun _ _ _ _ => rfl, rfl⟩

/-! Helper lemmas about the environment chain, shared by the lookup claims. -/

theorem findFrame_succ (store : Store) (e : Nat) (x : String) (fuel : Nat) :
    findFrame store e x (fuel + 1)
      = match store[e]? with
        | none => .error (.nameError x)
        | some fr =>
            if (lookupBinding fr.bindings x).isSome then .ok e
            else
              match fr.parent with
              | none => .error (.nameError x)
              | some p => findFrame store p x fuel := rfl

theorem envChain_succ (store : Store) (e : Nat) (fuel : Nat) :
    envChain store e (fuel + 1)
      = match store[e]? with
        | none => [e]
        | some fr =>
            match fr.parent with
            | none => [e]
            | some p => e :: envChain store p fuel := rfl

theorem findFrame_innermost (store : Store) (e : Nat) (x : String) (fr : Frame)
    (he : store[e]? = some fr) (hl : (lookupBinding fr.bindings x).isSome = true) :
    findFrame store e x (store.length + 1) = .ok e := by
  rw [findFrame_succ, he]
  simp [hl]

theorem getVar_innermost (store : Store) (e : Nat) (x : String) (fr : Frame) (v : Value)
    (he : store[e]? = some fr) (hl : lookupBinding fr.bindings x = some v) :
    getVar store e x = .ok v := by
  unfold getVar
  rw [findFrame_innermost store e x fr he (by simp [hl])]
  simp [he, hl, Bind.bind, Except.bind]

theorem findFrame_delegates (store : Store) (e : Nat) (x : String) (fr : Frame) (p fuel : Nat)
    (he : store[e]? = some fr) (hl : lookupBinding fr.bindings x = none)
    (hp : fr.parent = some p) :
    findFrame store e x (fuel + 1) = findFrame store p x fuel := by
  rw [findFrame_succ, he]
  simp [hl, hp]

theorem findFrame_absent (fuel : Nat) : ∀ (store : Store) (e : Nat) (x : String),
    (∀ i ∈ envChain store e fuel, ∀ fr, store[i]? = some fr →
        lookupBinding fr.bindings x = none) →
    findFrame store e x fuel = .error (.nameError x) := by
  induction fuel with
  | zero => intro store e x _; rfl
  | succ n ih =>
      intro store e x h
      rw [findFrame_succ]
      cases he : store[e]? with
      | none => rfl
      | some fr =>
          have hmem : e ∈ envChain store e (n + 1) := by
            rw [envChain_succ]
            cases hp : fr.parent <;> simp [he, hp]
          have hx : lookupBinding fr.bindings x = none := h e hmem fr he
          simp only [hx, Option.isSome_none, Bool.false_eq_true, if_false]
          cases hp : fr.parent with
          | none => rfl
          | some p =>
              apply ih
              intro i hi fr2 h2
              refine h i ?_ fr2 h2
              rw [envChain_succ]
              simp only [he, hp]
              exact List.mem_cons_of_mem _ hi

theorem getVar_absent (store : Store) (e : Nat) (x : String)
    (h : ∀ i ∈ envChain store e (store.length + 1), ∀ fr, store[i]? = some fr →
        lookupBinding fr.bindings x = none) :
    getVar store e x = .error (.nameError x) := by
  unfold getVar
  rw [findFrame_absent (store.length + 1) store e x h]
  rfl

theorem setVar_other (store : Store) (e : Nat) (x : String) (v : Value) (j : Nat)
    (hj : j ≠ e) : (setVar store e x v)[j]? = store[j]? := by
  unfold setVar
  cases he : store[e]? with
  | none => rfl
  | some fr => exact List.getElem?_set_ne (fun hh => hj hh.symm)

theorem setVar_self (store : Store) (e : Nat) (x : String) (v : Value) (fr : Frame)
    (he : store[e]? = some fr) :
    (setVar store e x v)[e]?
      = some { fr with bindings := setBinding fr.bindings x v } := by
  unfold setVar
  rw [he]
  have hlt : e < store.length := by
    by_contra hge
    rw [List.getElem?_eq_none (by omega)] at he
    exact Option.noConfusion he
  rw [List.getElem?_set_self hlt]

theorem define_writes_innermost (fuel env : Nat) (store0 : Store) (x : String) (ve : Exp)
    (v : Value) (s : Store) (h : evaluate fuel ve env store0 = .ok (v, s)) :
    evaluate (fuel + 1) (.list [.sym "define", .sym x, ve]) env store0
      = .ok (.nil, setVar s env x v) := by
  simp [evaluate, evalDefine, h, Bind.bind, Except.bind]

/-! Helper lemmas about token consumption of the parser. -/

theorem parenBalance_cons (t : String) (ts : List String) :
    parenBalance (t :: ts) = parenScore t + parenBalance ts := by
  simp [parenBalance]

theorem parenBalance_append (a b : List String) :
    parenBalance (a ++ b) = parenBalance a + parenBalance b := by
  simp [parenBalance]

theorem parseAux_consumes (fuel : Nat) : ∀ (mode : Bool) (ts : List String) (l : List Exp)
    (rest : List String), parseAux fuel mode ts = .ok (l, rest) →
    ∃ pre, ts = pre ++ rest ∧ parenBalance pre = if mode then 0 else -1 := by
  induction fuel with
  | zero => intro mode ts l rest h; exact absurd h (by simp [parseAux])
  | succ n ih =>
      intro mode ts l rest h
      cases mode with
      | true =>
          cases ts with
          | nil => exact absurd h (by simp [parseAux])
          | cons t ts2 =>
              by_cases hopen : t = "("
              · subst hopen
                cases hg : parseAux n false ts2 with
                | error er =>
                    simp [parseAux, hg, Bind.bind, Except.bind] at h
                | ok pr =>
                    obtain ⟨lg, rg⟩ := pr
                    simp only [parseAux, if_pos rfl, hg, Bind.bind, Except.bind] at h
                    injection h with hpair
                    injection hpair with hle hre
                    subst hre
                    obtain ⟨pre, hpre, hbal⟩ := ih false ts2 lg _ hg
                    refine ⟨"(" :: pre, ?_, ?_⟩
                    · rw [hpre]; rfl
                    · rw [parenBalance_cons, hbal]
                      simp [parenScore]
              · by_cases hclose : t = ")"
                · subst hclose
                  simp [parseAux, hopen] at h
                · simp only [parseAux, if_neg hopen, if_neg hclose] at h
                  injection h with hpair
                  injection hpair with hle hre
                  subst hre
                  exact ⟨[t], rfl, by simp [parenBalance, parenScore, hopen, hclose]⟩
      | false =>
          cases ts with
          | nil => exact absurd h (by simp [parseAux])
          | cons t ts2 =>
              by_cases hclose : t = ")"
              · subst hclose
                simp only [parseAux, if_pos rfl] at h
                injection h with hpair
                injection hpair with hle hre
                subst hre
                exact ⟨[")"], rfl, by simp [parenBalance, parenScore]⟩
              · cases h1 : parseAux n true (t :: ts2) with
                | error er =>
                    simp [parseAux, if_neg hclose, h1, Bind.bind, Except.bind] at h
                | ok pr1 =>
                    obtain ⟨l1, r1⟩ := pr1
                    cases h2 : parseAux n false r1 with
                    | error er =>
                        simp [parseAux, if_neg hclose, h1, h2, Bind.bind, Except.bind] at h
                    | ok pr2 =>
                        obtain ⟨l2, r2⟩ := pr2
                        simp only [parseAux, if_neg hclose, h1, h2, Bind.bind, Except.bind] at h
                        injection h with hpair
                        injection hpair with hle hre
                        subst hre
                        obtain ⟨pre1, hpre1, hbal1⟩ := ih true (t :: ts2) l1 r1 h1
                        obtain ⟨pre2, hpre2, hbal2⟩ := ih false r1 l2 _ h2
                        refine ⟨pre1 ++ pre2, ?_, ?_⟩
                        · rw [hpre1, hpre2, List.append_assoc]
                        · rw [parenBalance_append, hbal1, hbal2]
                          simp

theorem parse_consumes_balanced (fuel : Nat) (ts : List String) (e : Exp)
    (rest : List String) (h : parse fuel ts = .ok (e, rest)) :
    ∃ pre, ts = pre ++ rest ∧ parenBalance pre = 0 := by
  unfold parse at h
  cases h1 : parseAux fuel true ts with
  | error er => simp [h1, Bind.bind, Except.bind] at h
  | ok pr =>
      obtain ⟨l, r⟩ := pr
      simp only [h1, Bind.bind, Except.bind] at h
      cases l with
      | nil => simp at h
      | cons e1 l2 =>
          cases l2 with
          | nil =>
              injection h with hpair
              injection hpair with hle hre
              subst hre
              obtain ⟨pre, hpre, hbal⟩ := parseAux_consumes fuel true ts [e1] _ h1
              exact ⟨pre, hpre, by simpa using hbal⟩
          | cons e2 l3 => simp at h

/-- C6: every successfully parsed expression consumes a balanced token prefix
(equal net paren balance), and an unmatched group or exhausted input is a
SyntaxError; but the EMPTY group is not a parse error: parse on the tokens of
( ) succeeds with the empty List, which only evaluate rejects, with the
malformed-expression SyntaxError. -/
theorem c6_parse_balanced_and_empty_group :
    (∀ fuel ts e rest, parse fuel ts = .ok (e, rest) →
        ∃ pre, ts = pre ++ rest ∧ parenBalance pre = 0)
    ∧ parse 10 (tokenize "( )") = .ok (.list [], [])
    ∧ (∀ fuel env (store0 : Store), evaluate (fuel + 1) (.list []) env store0
        = .error (.syntaxError "Malformed expression"))
    ∧ parse 10 (tokenize "(") = .error (.syntaxError "Expected close paren")
    ∧ parse 10 (tokenize ")") = .error (.syntaxError "Unexpected close paren")
    ∧ parse 10 [] = .error (.syntaxError "Unexpected EOF while parsing") := by
  refine ⟨?_, rfl, fun _ _ _ => rfl, rfl, rfl, rfl⟩
  intro fuel ts e rest h
  exact parse_consumes_balanced fuel ts e rest h

/-- C6 counterexample: the empty parenthesis group is not a parse error;
parse returns the empty List expression and consumes both tokens. -/
theorem c6_counterexample_empty_group_parses :
    parse 10 (tokenize "( )") = .ok (.list [], []) := rfl

/-- C6 witness: the balanced-consumption clause applied to the concrete
token sequence of ( 1 ). -/
theorem c6_witness :
    parse 10 ["(", "1", ")"] = .ok (.list [.num ⟨1, 1⟩], [])
    ∧ ∃ pre, ["(", "1", ")"] = pre ++ ([] : List String) ∧ parenBalance pre = 0 :=
  ⟨rfl, c6_parse_balanced_and_empty_group.1 10 ["(", "1", ")"]
    (.list [.num ⟨1, 1⟩]) [] rfl⟩

/-- C7: an if form of exactly 4 elements evaluates its test; exactly when the
test value is the Boolean false it evaluates and returns the alternative, and
for every other value (zero included) the consequent; any other element count
is the malformed-if SyntaxError. -/
theorem c7_if_semantics :
    (∀ fuel env t c a s store0, evaluate fuel t env store0 = .ok (.bool false, s) →
        evaluate (fuel + 1) (.list [.sym "if", t, c, a]) env store0 = evaluate fuel a env s)
    ∧ (∀ fuel env t c a v s store0, evaluate fuel t env store0 = .ok (v, s) →
        v ≠ .bool false →
        evaluate (fuel + 1) (.list [.sym "if", t, c, a]) env store0 = evaluate fuel c env s)
    ∧ (∀ fuel env (store0 : Store) args, List.length args ≠ 3 →
        evaluate (fuel + 1) (.list (.sym "if" :: args)) env store0
          = .error (.syntaxError "Malformed if expression"))
    ∧ evalString "(if #f 1 2)" = .ok (.num 2)
    ∧ evalString "(if 0 1 2)" = .ok (.num 1)
    ∧ evalString "(if #t 1 2)" = .ok (.num 1) := by
  refine ⟨?_, ?_, ?_, rfl, rfl, rfl⟩
  · intro fuel env t c a s store0 h
    simp [evaluate, evalIf, h, Bind.bind, Except.bind]
  · intro fuel env t c a v s store0 h hv
    simp only [evaluate, evalIf, h, Bind.bind, Except.bind]
  · intro fuel env store0 args h
    rcases args with _ | ⟨a1, _ | ⟨a2, _ | ⟨a3, _ | ⟨a4, rest⟩⟩⟩⟩
    · rfl
    · rfl
    · rfl
    · simp at h
    · rfl

/-- C7 witness: the general clauses applied at a truthy zero test and at a
malformed zero-element if. -/
theorem c7_witness :
    evaluate 1 (.num ⟨0, 1⟩) 0 [] = .ok (.num ⟨0, 1⟩, []) ∧
    Value.num ⟨0, 1⟩ ≠ .bool false ∧
    evaluate 2 (.list [.sym "if", .num ⟨0, 1⟩, .num ⟨1, 1⟩, .num ⟨2, 1⟩]) 0 []
      = evaluate 1 (.num ⟨1, 1⟩) 0 [] ∧
    List.length ([] : List Exp) ≠ 3 ∧
    evaluate 1 (.list [.sym "if"]) 0 [] = .error (.syntaxError "Malformed if expression") := by
  refine ⟨rfl, by simp, ?_, by simp, ?_⟩
  · exact c7_if_semantics.2.1 1 0 (.num ⟨0, 1⟩) (.num ⟨1, 1⟩) (.num ⟨2, 1⟩) (.num ⟨0, 1⟩)
      [] [] rfl (by simp)
  · exact c7_if_semantics.2.2.1 0 0 [] [] (by simp)

/-- C8: and with no operands returns true and or returns false; both evaluate
operands left to right, and short-circuits on the first Boolean false and
otherwise returns the last operand value, or returns its first non-false
value and otherwise false; in particular (and #f (/ 1 0)) and (or #t (/ 1 0))
return without evaluating the division, which by itself would raise. -/
theorem c8_and_or_semantics :
    (∀ fuel env (store0 : Store), evaluate (fuel + 1) (.list [.sym "and"]) env store0
        = .ok (.bool true, store0))
    ∧ (∀ fuel env (store0 : Store), evaluate (fuel + 1) (.list [.sym "or"]) env store0
        = .ok (.bool false, store0))
    ∧ (∀ fuel env (store0 : Store) e es s, evaluate fuel e env store0 = .ok (.bool false, s) →
        evaluate (fuel + 1) (.list (.sym "and" :: e :: es)) env store0 = .ok (.bool false, s))
    ∧ (∀ fuel env (store0 : Store) e e2 es v s, evaluate fuel e env store0 = .ok (v, s) →
        v ≠ .bool false →
        evaluate (fuel + 1) (.list (.sym "and" :: e :: e2 :: es)) env store0
          = andLoop (evaluate fuel) (e2 :: es) env s)
    ∧ (∀ fuel env (store0 : Store) e v s, evaluate fuel e env store0 = .ok (v, s) →
        v ≠ .bool false →
        evaluate (fuel + 1) (.list [.sym "and", e]) env store0 = .ok (v, s))
    ∧ (∀ fuel env (store0 : Store) e es v s, evaluate fuel e env store0 = .ok (v, s) →
        v ≠ .bool false →
        evaluate (fuel + 1) (.list (.sym "or" :: e :: es)) env store0 = .ok (v, s))
    ∧ (∀ fuel env (store0 : Store) e es s, evaluate fuel e env store0 = .ok (.bool false, s) →
        evaluate (fuel + 1) (.list (.sym "or" :: e :: es)) env store0
          = orLoop (evaluate fuel) es env s)
    ∧ evalString "(and #f (/ 1 0))" = .ok (.bool false)
    ∧ evalString "(or #t (/ 1 0))" = .ok (.bool true)
    ∧ evalString "(/ 1 0)" = .error .zeroDivisionError := by
  refine ⟨fun _ _ _ => rfl, fun _ _ _ => rfl, ?_, ?_, ?_, ?_, ?_, rfl, rfl, rfl⟩
  · intro fuel env store0 e es s h
    cases es <;> simp [evaluate, evalAnd, andLoop, h, Bind.bind, Except.bind]
  · intro fuel env store0 e e2 es v s h hv
    simp only [evaluate, evalAnd, List.drop, andLoop, h, Bind.bind, Except.bind]
  · intro fuel env store0 e v s h hv
    simp only [evaluate, evalAnd, List.drop, andLoop, h, Bind.bind, Except.bind]
  · intro fuel env store0 e es v s h hv
    simp only [evaluate, evalOr, List.drop, orLoop, h, Bind.bind, Except.bind]
  · intro fuel env store0 e es s h
    simp [evaluate, evalOr, orLoop, h, Bind.bind, Except.bind]

/-- C8 witness: the short-circuit clauses applied at concrete operands. -/
theorem c8_witness :
    evaluate 1 (.bool false) 0 [] = .ok (.bool false, []) ∧
    evaluate 2 (.list [.sym "and", .bool false, .sym "boom"]) 0 [] = .ok (.bool false, []) ∧
    evaluate 1 (.bool true) 0 [] = .ok (.bool true, []) ∧
    Value.bool true ≠ .bool false ∧
    evaluate 2 (.list [.sym "or", .bool true, .sym "boom"]) 0 [] = .ok (.bool true, []) ∧
    evaluate 2 (.list [.sym "and", .bool true]) 0 [] = .ok (.bool true, []) ∧
    evaluate 2 (.list [.sym "and", .bool true, .bool true, .bool false]) 0 []
      = andLoop (evaluate 1) [.bool true, .bool false] 0 [] ∧
    evaluate 2 (.list [.sym "or", .bool false, .bool true]) 0 []
      = orLoop (evaluate 1) [.bool true] 0 [] := by
  refine ⟨rfl, ?_, rfl, by simp, ?_, ?_, ?_, ?_⟩
  · exact c8_and_or_semantics.2.2.1 1 0 [] (.bool false) [.sym "boom"] [] rfl
  · exact c8_and_or_semantics.2.2.2.2.2.1 1 0 [] (.bool true) [.sym "boom"]
      (.bool true) [] rfl (by simp)
  · exact c8_and_or_semantics.2.2.2.2.1 1 0 [] (.bool true) (.bool true) [] rfl (by simp)
  · exact c8_and_or_semantics.2.2.2.1 1 0 [] (.bool true) (.bool true) [.bool false]
      (.bool true) [] rfl (by simp)
  · exact c8_and_or_semantics.2.2.2.2.2.2.1 1 0 [] (.bool false) [.bool true] [] rfl

/-- C9: lookup walks the chain innermost-outward and the first frame binding
the symbol wins (a binding in the current frame shadows every parent); a
symbol bound in no frame of the chain gives NameError, never a silent nil;
and define evaluates its expression and writes the result into the bindings
of the current frame only, leaving every other frame untouched. -/
theorem c9_lookup_shadowing_define_innermost :
    (∀ (store : Store) e x fr v, store[e]? = some fr →
        lookupBinding fr.bindings x = some v → getVar store e x = .ok v)
    ∧ (∀ (store : Store) e x fr p fuel, store[e]? = some fr →
        lookupBinding fr.bindings x = none → fr.parent = some p →
        findFrame store e x (fuel + 1) = findFrame store p x fuel)
    ∧ (∀ (store : Store) e x,
        (∀ i ∈ envChain store e (store.length + 1), ∀ fr, store[i]? = some fr →
            lookupBinding fr.bindings x = none) →
        getVar store e x = .error (.nameError x))
    ∧ (∀ fuel env (store0 : Store) x ve v s, evaluate fuel ve env store0 = .ok (v, s) →
        evaluate (fuel + 1) (.list [.sym "define", .sym x, ve]) env store0
          = .ok (.nil, setVar s env x v))
    ∧ (∀ (store : Store) e x v j, j ≠ e → (setVar store e x v)[j]? = store[j]?)
    ∧ (∀ (store : Store) e x v fr, store[e]? = some fr →
        (setVar store e x v)[e]? = some { fr with bindings := setBinding fr.bindings x v }) := by
  refine ⟨?_, ?_, ?_, ?_, ?_, ?_⟩
  · intro store e x fr v he hl; exact getVar_innermost store e x fr v he hl
  · intro store e x fr p fuel he hl hp; exact findFrame_delegates store e x fr p fuel he hl hp
  · intro store e x h; exact getVar_absent store e x h
  · intro fuel env store0 x ve v s h; exact define_writes_innermost fuel env store0 x ve v s h
  · intro store e x v j hj; exact setVar_other store e x v j hj
  · intro store e x v fr he; exact setVar_self store e x v fr he

/-- C9 witness: the lookup and define clauses applied to a concrete two-frame
chain in which the inner frame shadows x, y is nowhere, and a define into the
inner frame leaves the outer frame unchanged. -/
theorem c9_witness :
    getVar [⟨[("x", .num ⟨1, 1⟩)], none⟩, ⟨[("x", .num ⟨2, 1⟩)], some 0⟩] 1 "x"
        = .ok (.num ⟨2, 1⟩)
    ∧ findFrame [⟨[("x", .num ⟨1, 1⟩)], none⟩, ⟨[("x", .num ⟨2, 1⟩)], some 0⟩] 1 "y" 3
        = findFrame [⟨[("x", .num ⟨1, 1⟩)], none⟩, ⟨[("x", .num ⟨2, 1⟩)], some 0⟩] 0 "y" 2
    ∧ getVar [⟨[("x", .num ⟨1, 1⟩)], none⟩, ⟨[("x", .num ⟨2, 1⟩)], some 0⟩] 1 "z"
        = .error (.nameError "z")
    ∧ evaluate 2 (.list [.sym "define", .sym "w", .num ⟨5, 1⟩]) 1
          [⟨[("x", .num ⟨1, 1⟩)], none⟩, ⟨[("x", .num ⟨2, 1⟩)], some 0⟩]
        = .ok (.nil, setVar [⟨[("x", .num ⟨1, 1⟩)], none⟩, ⟨[("x", .num ⟨2, 1⟩)], some 0⟩]
            1 "w" (.num ⟨5, 1⟩))
    ∧ (setVar [⟨[("x", .num ⟨1, 1⟩)], none⟩, ⟨[("x", .num ⟨2, 1⟩)], some 0⟩]
          1 "w" (.num ⟨5, 1⟩))[0]?
        = ([⟨[("x", .num ⟨1, 1⟩)], none⟩, ⟨[("x", .num ⟨2, 1⟩)], some 0⟩] : Store)[0]?
    ∧ (setVar [⟨[("x", .num ⟨1, 1⟩)], none⟩, ⟨[("x", .num ⟨2, 1⟩)], some 0⟩]
          1 "x" (.num ⟨9, 1⟩))[1]?
        = some ⟨setBinding [("x", .num ⟨2, 1⟩)] "x" (.num ⟨9, 1⟩), some 0⟩ := by
  refine ⟨?_, ?_, ?_, ?_, ?_, ?_⟩
  · exact c9_lookup_shadowing_define_innermost.1 _ 1 "x" ⟨[("x", .num ⟨2, 1⟩)], some 0⟩
      (.num ⟨2, 1⟩) rfl rfl
  · exact c9_lookup_shadowing_define_innermost.2.1 _ 1 "y" ⟨[("x", .num ⟨2, 1⟩)], some 0⟩
      0 2 rfl rfl rfl
  · refine c9_lookup_shadowing_define_innermost.2.2.1 _ 1 "z" ?_
    intro i hi fr hfr
    simp [envChain, lookupBinding] at hi
    rcases hi with h1 | h0
    · subst h1
      have h2 : ⟨[("x", .num ⟨2, 1⟩)], some 0⟩ = fr := by
        simpa using hfr
      subst h2
      rfl
    · subst h0
      have h2 : ⟨[("x", .num ⟨1, 1⟩)], none⟩ = fr := by
        simpa using hfr
      subst h2
      rfl
  · exact c9_lookup_shadowing_define_innermost.2.2.2.1 1 1 _ "w" (.num ⟨5, 1⟩)
      (.num ⟨5, 1⟩) _ rfl
  · exact c9_lookup_shadowing_define_innermost.2.2.2.2.1 _ 1 "w" (.num ⟨5, 1⟩) 0 (by simp)
  · exact c9_lookup_shadowing_define_innermost.2.2.2.2.2 _ 1 "x" (.num ⟨9, 1⟩)
      ⟨[("x", .num ⟨2, 1⟩)], some 0⟩ rfl

end SchemePy
